import Mathlib

/-!
A verification development for the lecture-generator application: a shallow
embedding of its data model (the four tables of the initial schema migration),
its row-level-security policies, the OpenRouter client (`src/lib/openrouter.ts`),
the Supabase client module, and the dashboard operations, together with theorems
settling the specified properties.
-/

namespace App

/-- A row of the `profiles` table (type `Profile` in the supabase client module). -/
structure Profile where
  id : String
  email : String
  full_name : String
  role : String
  deriving DecidableEq

/-- A row of the `courses` table (type `Course`); timestamps are not modelled. -/
structure Course where
  id : String
  title : String
  description : String
  code : String
  created_by : String
  deriving DecidableEq

/-- A row of the `course_assignments` table (type `CourseAssignment`). -/
structure CourseAssignment where
  id : String
  course_id : String
  lecturer_id : String
  assigned_by : String
  deriving DecidableEq

/-- A row of the `generated_content` table (type `GeneratedContent`);
`created_at` is a timestamp modelled as a natural number. -/
structure GeneratedContent where
  id : String
  course_id : String
  lecturer_id : String
  content_type : String
  title : String
  content : String
  prompt_used : String
  created_at : Nat
  deriving DecidableEq

/-! ## OpenRouter client (`src/lib/openrouter.ts`) -/

/-- One message of the chat-style request body. -/
structure ChatMessage where
  role : String
  content : String
  deriving DecidableEq

/-- The JSON body `generateCourseContent` sends to the chat completions
endpoint (HTTP headers are not part of the body and are not modelled). -/
structure ChatRequest where
  model : String
  messages : List ChatMessage
  max_tokens : Nat
  temperature : ℚ
  deriving DecidableEq

/-- The parsed JSON body of an ok response, as the extraction line
`data.choices[0]?.message?.content` sees it. The optional chain begins only
after the indexing, so a body whose `choices` key is absent (or whose `data`
is not an object) makes `data.choices[0]` throw a TypeError; a body that is
not valid JSON makes the uncaught `response.json()` reject. -/
inductive OkBody
  | notJson
  | noChoices
  | choices (content : Option String)
  deriving DecidableEq

/-- Abstraction of the fetch response: `ok` and `statusText` come from the
Response object; `errorMessage` is the value of `error.error?.message` after
parsing the error body on the non-ok branch (`none` when that body fails to
parse — the catch there supplies a fallback object — or carries no message);
`body` is the parsed body the ok branch reads, with its two throwing cases
representable. -/
structure NetResponse where
  ok : Bool
  statusText : String
  errorMessage : Option String
  body : OkBody
  deriving DecidableEq

/-- JavaScript `x || y` where `x` is an optional string: `y` is returned when
`x` is absent or empty (both falsy). -/
def jsOrElse (x : Option String) (y : String) : String :=
  match x with
  | some s => if s.isEmpty then y else s
  | none => y

/-- The system prompt template: the source interpolates the content type into
a fixed string (the trailing truncated sentence is in the source). -/
def systemPrompt (contentType : String) : String :=
  "You are an expert educational content creator. Generate high-quality, engaging "
    ++ contentType
    ++ " content for university-level courses. Structure your content with clear headings, bullet points, and examples where appropriate. Make it educational, comprehensive, and easy to understand. Ensure that the "

/-- The request body built by `generateCourseContent`. -/
def buildChatRequest (prompt : String) (contentType : String) : ChatRequest :=
  { model := "meta-llama/llama-3.2-3b-instruct:free"
  , messages :=
      [ { role := "system", content := systemPrompt contentType }
      , { role := "user", content := prompt } ]
  , max_tokens := 2000
  , temperature := 0.7 }

/-- Result of one call to `generateCourseContent`: an Error thrown by the code
itself, an uncaught runtime exception of the given kind (its message text is
runtime-dependent), or a returned string. -/
inductive GenResult
  | err (msg : String)
  | exn (kind : String)
  | ok (text : String)
  deriving DecidableEq

/-- The observable outcome of a call: its result together with the network
requests it issued, so that failing before any network request is expressible. -/
structure GenOutcome where
  result : GenResult
  requests : List ChatRequest
  deriving DecidableEq

/-- Shallow embedding of `generateCourseContent`. `apiKey` is the value of the
`VITE_OPENROUTER_API_KEY` environment variable (`none` when missing); `net`
maps each request to the response the endpoint returns. The guard mirrors the
falsy test on the key; a non-ok response throws with the parsed error message
or the status text; on an ok response, an unparseable body rejects with the
uncaught SyntaxError of `response.json()`, a body without a usable `choices`
array throws the TypeError of `data.choices[0]`, and otherwise the extracted
content or the placeholder string is returned. -/
def generateCourseContent (apiKey : Option String) (net : ChatRequest → NetResponse)
    (prompt : String) (contentType : String := "lesson") : GenOutcome :=
  if (apiKey.getD "").isEmpty then
    { result := .err "OpenRouter API key is not configured", requests := [] }
  else
    let req := buildChatRequest prompt contentType
    let resp := net req
    if resp.ok then
      match resp.body with
      | .notJson => { result := .exn "SyntaxError", requests := [req] }
      | .noChoices => { result := .exn "TypeError", requests := [req] }
      | .choices content =>
          { result := .ok (jsOrElse content "Failed to generate content")
          , requests := [req] }
    else
      { result := .err ("OpenRouter API error: " ++ jsOrElse resp.errorMessage resp.statusText)
      , requests := [req] }

/-! ## Supabase client module -/

/-- The client returned by the supabase module: the regular anonymous-key
client, or a client created with the service-role key. -/
inductive SupabaseClient
  | anonClient
  | serviceClient (key : String)
  deriving DecidableEq

/-- `createAdminClient`: with a configured (truthy) `VITE_SUPABASE_SERVICE_ROLE_KEY`
it creates a service-role client; otherwise it falls back to the regular client. -/
def createAdminClient (serviceRoleKey : Option String) : SupabaseClient :=
  match serviceRoleKey with
  | some k => if k.isEmpty then .anonClient else .serviceClient k
  | none => .anonClient

/-- The client every admin-dashboard operation starts from: `fetchData`,
`handleCreateCourse`, `handleCreateLecturer` and `handleAssignCourse` all call
`createAdminClient()` first. -/
def adminDashboardClient (serviceRoleKey : Option String) : SupabaseClient :=
  createAdminClient serviceRoleKey

/-! ## Lecturer dashboard (`src/pages/lecturer/Dashboard.tsx`) -/

/-- Insertion of one row into a list sorted by `created_at` descending. -/
def insertByCreatedAtDesc (r : GeneratedContent) :
    List GeneratedContent → List GeneratedContent
  | [] => [r]
  | x :: xs =>
      if x.created_at < r.created_at then r :: x :: xs
      else x :: insertByCreatedAtDesc r xs

/-- Sorting by `created_at` descending: models the order clause with
`ascending: false` of the dashboard query. -/
def sortByCreatedAtDesc : List GeneratedContent → List GeneratedContent
  | [] => []
  | x :: xs => insertByCreatedAtDesc x (sortByCreatedAtDesc xs)

/-- The rows of the store owned by the lecturer whose profile id is `pid`:
the row-level-security policy on `generated_content` for authenticated users
restricts to `lecturer_id = auth.uid()`, and the dashboard query adds the
equal-valued filter on `lecturer_id`; both are this predicate. -/
def ownContent (store : List GeneratedContent) (pid : String) : List GeneratedContent :=
  store.filter (fun r => r.lecturer_id == pid)

/-- `fetchGeneratedContent` of the lecturer dashboard: select the rows whose
`lecturer_id` equals the signed-in profile id, newest first. -/
def fetchGeneratedContent (store : List GeneratedContent) (pid : String) :
    List GeneratedContent :=
  sortByCreatedAtDesc (ownContent store pid)

/-! ## Registration (`src/contexts/AuthContext.tsx` and the schema trigger) -/

/-- The `raw_user_meta_data` recorded at sign-up (`options.data`). -/
structure UserMetadata where
  full_name : Option String
  role : Option String
  deriving DecidableEq

/-- A row of `auth.users` as seen by the profile-creation trigger. -/
structure AuthUser where
  id : String
  email : String
  raw_user_meta_data : UserMetadata
  deriving DecidableEq

/-- `create_profile_for_new_user` (initial schema migration): the trigger fired
after each insert into `auth.users` inserts one profile row, taking `full_name`
and `role` from the metadata by COALESCE with defaults. -/
def create_profile_for_new_user (u : AuthUser) : Profile :=
  { id := u.id
  , email := u.email
  , full_name := u.raw_user_meta_data.full_name.getD "New User"
  , role := u.raw_user_meta_data.role.getD "lecturer" }

/-- `signUp` of the auth context composed with the trigger: registration passes
`full_name` and `role` as user metadata, with the `role` parameter defaulting
to lecturer when omitted (`role` here is the optional argument: `none` means the
caller omitted it); the trigger then creates the profile row. Returns the
profile store afterwards. -/
def signUp (store : List Profile) (id email fullName : String)
    (role : Option String) : List Profile :=
  let metadata : UserMetadata :=
    { full_name := some fullName, role := some (role.getD "lecturer") }
  store ++ [create_profile_for_new_user
    { id := id, email := email, raw_user_meta_data := metadata }]

/-! ## Profile updates under row-level security -/

/-- One authenticated (non-service-role) UPDATE statement against `profiles`
under the policy for own-profile updates: rows satisfying USING
(`auth.uid() = id`) are updated by `f`; if any updated row fails WITH CHECK
(`auth.uid() = id` again), the statement errors and the table is unchanged. -/
def runProfileUpdate (uid : String) (f : Profile → Profile) (store : List Profile) :
    Except String (List Profile) :=
  if store.any (fun row => uid == row.id && uid != (f row).id) then
    .error "new row violates row-level security policy for table profiles"
  else
    .ok (store.map (fun row => if uid == row.id then f row else row))

/-! ## Admin inserts under unique constraints -/

/-- Outcome of one INSERT statement: the table afterwards and the error
returned to the client, if any. -/
structure InsertOutcome (α : Type) where
  table : List α
  error : Option String
  deriving DecidableEq

/-- INSERT into `courses` under the UNIQUE constraint on `code` declared by the
initial schema: a duplicate code violates the constraint, the statement is
rejected and the table is unchanged; otherwise the row is appended. This is the
write `handleCreateCourse` performs. -/
def insertCourse (table : List Course) (c : Course) : InsertOutcome Course :=
  if table.any (fun x => x.code == c.code) then
    { table := table
    , error := some "duplicate key value violates unique constraint courses_code_key" }
  else
    { table := table ++ [c], error := none }

/-- INSERT into `course_assignments` under the UNIQUE(course_id, lecturer_id)
constraint of the initial schema: a duplicate pair is rejected and the table is
unchanged; otherwise the row is appended. This is the write
`handleAssignCourse` performs. -/
def insertAssignment (table : List CourseAssignment) (a : CourseAssignment) :
    InsertOutcome CourseAssignment :=
  if table.any (fun x => x.course_id == a.course_id && x.lecturer_id == a.lecturer_id) then
    { table := table
    , error := some "duplicate key value violates unique constraint course_assignments_course_id_lecturer_id_key" }
  else
    { table := table ++ [a], error := none }

/-! ## Operations of the application on `generated_content` -/

/-- Every code path of the application that touches the `generated_content`
table: the lecturer dashboard reads its own rows (`fetchGeneratedContent`) and
inserts one row after generation (`handleGenerateContent`); the admin dashboard
reads recent rows (`fetchData`). No code path issues an update or a delete. -/
inductive ContentOp
  | lecturerFetch (pid : String)
  | adminFetch
  | lecturerGenerate (row : GeneratedContent)

/-- The effect of one application operation on the `generated_content` store:
reads leave it unchanged, generation appends the freshly inserted row. -/
def applyContentOp (store : List GeneratedContent) : ContentOp → List GeneratedContent
  | .lecturerFetch _ => store
  | .adminFetch => store
  | .lecturerGenerate row => store ++ [row]

/-! ## Helper lemmas -/

theorem mem_insertByCreatedAtDesc (r x : GeneratedContent) (l : List GeneratedContent) :
    x ∈ insertByCreatedAtDesc r l ↔ x = r ∨ x ∈ l := by
  induction l with
  | nil => simp [insertByCreatedAtDesc]
  | cons a t ih =>
      simp only [insertByCreatedAtDesc]
      split
      · simp [List.mem_cons]
      · simp only [List.mem_cons, ih]
        tauto

theorem mem_sortByCreatedAtDesc (x : GeneratedContent) (l : List GeneratedContent) :
    x ∈ sortByCreatedAtDesc l ↔ x ∈ l := by
  induction l with
  | nil => simp [sortByCreatedAtDesc]
  | cons a t ih =>
      simp only [sortByCreatedAtDesc, mem_insertByCreatedAtDesc, List.mem_cons, ih]

/-! ## The claims -/

/-- C1: `fetchGeneratedContent` returns only rows whose `lecturer_id` equals the
signed-in profile id, and two stores agreeing on the rows of that lecturer —
hence differing only in rows of other lecturers — produce the same result. -/
theorem C1_fetch_only_own_content (store₁ store₂ : List GeneratedContent) (pid : String)
    (h : ownContent store₁ pid = ownContent store₂ pid) :
    fetchGeneratedContent store₁ pid = fetchGeneratedContent store₂ pid ∧
    ∀ r ∈ fetchGeneratedContent store₁ pid, r.lecturer_id = pid := by
  constructor
  · unfold fetchGeneratedContent
    rw [h]
  · intro r hr
    rw [fetchGeneratedContent, mem_sortByCreatedAtDesc, ownContent, List.mem_filter] at hr
    exact beq_iff_eq.mp hr.2

/-- Witness for C1 at concrete stores: the two stores share the single row owned
by lecturer u1 and differ in a row owned by u2 versus one owned by u3. -/
theorem C1_witness :
    fetchGeneratedContent
        [ { id := "g1", course_id := "c1", lecturer_id := "u1", content_type := "lesson"
          , title := "t1", content := "x", prompt_used := "p", created_at := 5 }
        , { id := "g2", course_id := "c1", lecturer_id := "u2", content_type := "lesson"
          , title := "t2", content := "y", prompt_used := "p", created_at := 9 } ] "u1" =
      fetchGeneratedContent
        [ { id := "g1", course_id := "c1", lecturer_id := "u1", content_type := "lesson"
          , title := "t1", content := "x", prompt_used := "p", created_at := 5 }
        , { id := "g3", course_id := "c2", lecturer_id := "u3", content_type := "quiz"
          , title := "t3", content := "z", prompt_used := "q", created_at := 1 } ] "u1" ∧
    ∀ r ∈ fetchGeneratedContent
        [ { id := "g1", course_id := "c1", lecturer_id := "u1", content_type := "lesson"
          , title := "t1", content := "x", prompt_used := "p", created_at := 5 }
        , { id := "g2", course_id := "c1", lecturer_id := "u2", content_type := "lesson"
          , title := "t2", content := "y", prompt_used := "p", created_at := 9 } ] "u1",
      r.lecturer_id = "u1" :=
  C1_fetch_only_own_content _ _ "u1" (by decide)

/-- C3: with a missing or empty OpenRouter API key, `generateCourseContent`
throws the configuration error and issues no network request at all. -/
theorem C3_missing_key_fails_fast (apiKey : Option String) (net : ChatRequest → NetResponse)
    (prompt contentType : String) (h : apiKey = none ∨ apiKey = some "") :
    (generateCourseContent apiKey net prompt contentType).result =
        .err "OpenRouter API key is not configured" ∧
    (generateCourseContent apiKey net prompt contentType).requests = [] := by
  rcases h with h | h <;> subst h <;> exact ⟨rfl, rfl⟩

/-- Witness for C3 at a concrete missing key and a concrete network. -/
theorem C3_witness :
    (generateCourseContent none
        (fun _ => { ok := true, statusText := "OK", errorMessage := none, body := OkBody.choices (some "hi") })
        "make a quiz" "quiz").result = .err "OpenRouter API key is not configured" ∧
    (generateCourseContent none
        (fun _ => { ok := true, statusText := "OK", errorMessage := none, body := OkBody.choices (some "hi") })
        "make a quiz" "quiz").requests = [] :=
  C3_missing_key_fails_fast none _ "make a quiz" "quiz" (Or.inl rfl)

/-- C9: every application operation on `generated_content` either leaves the
store unchanged (the reads) or appends exactly one new row (generation); hence
rows are never updated or deleted, and every existing row survives unchanged. -/
theorem C9_generated_content_append_only (store : List GeneratedContent) (op : ContentOp) :
    applyContentOp store op = store ∨
    ∃ row, applyContentOp store op = store ++ [row] := by
  cases op with
  | lecturerFetch pid => exact Or.inl rfl
  | adminFetch => exact Or.inl rfl
  | lecturerGenerate row => exact Or.inr ⟨row, rfl⟩

/-- C10: without a configured service-role key, `createAdminClient` returns the
regular anonymous-key client, and that is the client every admin-dashboard
operation proceeds with. -/
theorem C10_admin_client_fallback (serviceRoleKey : Option String)
    (h : serviceRoleKey = none ∨ serviceRoleKey = some "") :
    createAdminClient serviceRoleKey = SupabaseClient.anonClient ∧
    adminDashboardClient serviceRoleKey = SupabaseClient.anonClient := by
  rcases h with h | h <;> subst h <;> exact ⟨rfl, rfl⟩

/-- Witness for C10 at the concrete missing key. -/
theorem C10_witness :
    createAdminClient none = SupabaseClient.anonClient ∧
    adminDashboardClient none = SupabaseClient.anonClient :=
  C10_admin_client_fallback none (Or.inl rfl)

/-- C2: a registration (role argument omitted, or one of the two values the
signature allows) creates exactly one profile row for the new identity, whose
role is admin exactly when the registration explicitly set admin, and lecturer
otherwise. -/
theorem C2_signup_creates_one_profile (store : List Profile)
    (id email fullName : String) (role : Option String)
    (hrole : role = none ∨ role = some "admin" ∨ role = some "lecturer") :
    signUp store id email fullName role =
      store ++ [{ id := id, email := email, full_name := fullName
                , role := if role = some "admin" then "admin" else "lecturer" }] := by
  rcases hrole with h | h | h <;> subst h <;> simp [signUp, create_profile_for_new_user]

/-- Witness for C2: a concrete registration that omits the role yields one
lecturer profile. -/
theorem C2_witness :
    signUp [] "u9" "u9@example.com" "Ada" none =
      [{ id := "u9", email := "u9@example.com", full_name := "Ada"
       , role := if (none : Option String) = some "admin" then "admin" else "lecturer" }] :=
  C2_signup_creates_one_profile [] "u9" "u9@example.com" "Ada" none (Or.inl rfl)

/-- C6: inserting a course whose code already occurs in the table errors and
leaves the table unchanged, while inserting a course with a fresh code succeeds
and appends the row. -/
theorem C6_course_code_unique (table : List Course) (c : Course) :
    ((∃ x ∈ table, x.code = c.code) →
      ((insertCourse table c).error).isSome ∧ (insertCourse table c).table = table) ∧
    ((∀ x ∈ table, x.code ≠ c.code) →
      (insertCourse table c).error = none ∧ (insertCourse table c).table = table ++ [c]) := by
  constructor
  · rintro ⟨x, hx, hcode⟩
    have hany : table.any (fun x => x.code == c.code) = true :=
      List.any_eq_true.mpr ⟨x, hx, beq_iff_eq.mpr hcode⟩
    rw [insertCourse, if_pos hany]
    exact ⟨rfl, rfl⟩
  · intro hfresh
    have hany : table.any (fun x => x.code == c.code) = false := by
      rw [List.any_eq_false]
      intro x hx
      simpa using hfresh x hx
    rw [insertCourse, hany]
    exact ⟨rfl, rfl⟩

/-- Witness for C6: a duplicate of code CS101 is rejected without adding a row,
and a fresh code CS201 is accepted. -/
theorem C6_witness :
    (((insertCourse
          [{ id := "c1", title := "Intro", description := "", code := "CS101"
           , created_by := "a1" }]
          { id := "c2", title := "Again", description := "", code := "CS101"
          , created_by := "a1" }).error).isSome ∧
      (insertCourse
          [{ id := "c1", title := "Intro", description := "", code := "CS101"
           , created_by := "a1" }]
          { id := "c2", title := "Again", description := "", code := "CS101"
          , created_by := "a1" }).table =
        [{ id := "c1", title := "Intro", description := "", code := "CS101"
         , created_by := "a1" }]) ∧
    ((insertCourse
          [{ id := "c1", title := "Intro", description := "", code := "CS101"
           , created_by := "a1" }]
          { id := "c3", title := "Data", description := "", code := "CS201"
          , created_by := "a1" }).error = none ∧
      (insertCourse
          [{ id := "c1", title := "Intro", description := "", code := "CS101"
           , created_by := "a1" }]
          { id := "c3", title := "Data", description := "", code := "CS201"
          , created_by := "a1" }).table =
        [{ id := "c1", title := "Intro", description := "", code := "CS101"
         , created_by := "a1" }] ++
        [{ id := "c3", title := "Data", description := "", code := "CS201"
         , created_by := "a1" }]) :=
  ⟨(C6_course_code_unique _ _).1 (by decide), (C6_course_code_unique _ _).2 (by decide)⟩

/-- C7: inserting a course assignment whose (course_id, lecturer_id) pair
already occurs in the table errors, and the table is unchanged by the rejected
insert. -/
theorem C7_assignment_pair_unique (table : List CourseAssignment) (a : CourseAssignment)
    (hdup : ∃ x ∈ table, x.course_id = a.course_id ∧ x.lecturer_id = a.lecturer_id) :
    ((insertAssignment table a).error).isSome ∧
    (insertAssignment table a).table = table := by
  obtain ⟨x, hx, hc, hl⟩ := hdup
  have hany :
      table.any (fun x => x.course_id == a.course_id && x.lecturer_id == a.lecturer_id) = true :=
    List.any_eq_true.mpr ⟨x, hx, by rw [hc, hl]; simp⟩
  rw [insertAssignment, if_pos hany]
  exact ⟨rfl, rfl⟩

/-- Witness for C7: re-assigning course c1 to lecturer u1 is rejected and the
assignment table is unchanged. -/
theorem C7_witness :
    ((insertAssignment
        [{ id := "a1", course_id := "c1", lecturer_id := "u1", assigned_by := "ad" }]
        { id := "a2", course_id := "c1", lecturer_id := "u1", assigned_by := "ad" }).error).isSome ∧
    (insertAssignment
        [{ id := "a1", course_id := "c1", lecturer_id := "u1", assigned_by := "ad" }]
        { id := "a2", course_id := "c1", lecturer_id := "u1", assigned_by := "ad" }).table =
      [{ id := "a1", course_id := "c1", lecturer_id := "u1", assigned_by := "ad" }] :=
  C7_assignment_pair_unique _ _ ⟨_, List.mem_singleton.mpr rfl, rfl, rfl⟩

/-- C8: with a configured key, the one request `generateCourseContent` issues is
the chat-style body with exactly one system message (the template for the
content type) and one user message (the prompt of the caller), the fixed model
identifier, max_tokens 2000 and temperature 0.7. -/
theorem C8_request_shape (apiKey : String) (net : ChatRequest → NetResponse)
    (prompt contentType : String) (hkey : apiKey.isEmpty = false) :
    (generateCourseContent (some apiKey) net prompt contentType).requests =
      [{ model := "meta-llama/llama-3.2-3b-instruct:free"
       , messages :=
           [ { role := "system", content := systemPrompt contentType }
           , { role := "user", content := prompt } ]
       , max_tokens := 2000
       , temperature := 0.7 }] := by
  rw [generateCourseContent, Option.getD, hkey]
  simp only [Bool.false_eq_true, if_false]
  cases hok : (net (buildChatRequest prompt contentType)).ok
  · simp [hok, buildChatRequest]
  · cases hbody : (net (buildChatRequest prompt contentType)).body <;>
      simp [hok, hbody, buildChatRequest]

/-- Witness for C8 at a concrete key, network, prompt and content type. -/
theorem C8_witness :
    (generateCourseContent (some "k")
        (fun _ => { ok := true, statusText := "OK", errorMessage := none, body := OkBody.choices (some "hi") })
        "write a lesson on sorting" "lesson").requests =
      [{ model := "meta-llama/llama-3.2-3b-instruct:free"
       , messages :=
           [ { role := "system", content := systemPrompt "lesson" }
           , { role := "user", content := "write a lesson on sorting" } ]
       , max_tokens := 2000
       , temperature := 0.7 }] :=
  C8_request_shape "k" _ "write a lesson on sorting" "lesson" (by decide)

/-- A well-formed 200 response whose parsed body has an empty choices array:
the path data.choices[0]?.message?.content evaluates without throwing and
yields no generated text. -/
def emptySuccessResponse : NetResponse :=
  { ok := true, statusText := "OK", errorMessage := none
  , body := OkBody.choices none }

/-- C4 counterexample: with a configured key and an ok response whose body has
an empty choices array — so it contains no generated text — the call succeeds
anyway: its result is the hardcoded placeholder string, not text from the
response. This is a third outcome the claim rules out. -/
theorem C4_counterexample :
    emptySuccessResponse.body = OkBody.choices none ∧
    (generateCourseContent (some "k") (fun _ => emptySuccessResponse) "p" "lesson").result =
      .ok "Failed to generate content" :=
  ⟨rfl, rfl⟩

/-- C4 (amended): with a configured key the call issues exactly one request,
never retried; a non-ok response throws the API error; an ok response with an
unparseable body rejects with the uncaught SyntaxError, one whose body lacks a
usable choices array throws the TypeError of the extraction line, and one whose
choices array is readable succeeds — returning the extracted text when present
and non-empty and the fixed placeholder string otherwise, so a call can
succeed without returning generated text from the response. -/
theorem C4_single_request_no_retry (apiKey : String) (net : ChatRequest → NetResponse)
    (prompt contentType : String) (hkey : apiKey.isEmpty = false) :
    (generateCourseContent (some apiKey) net prompt contentType).requests =
      [buildChatRequest prompt contentType] ∧
    ((net (buildChatRequest prompt contentType)).ok = false →
      (generateCourseContent (some apiKey) net prompt contentType).result =
        .err ("OpenRouter API error: " ++
          jsOrElse (net (buildChatRequest prompt contentType)).errorMessage
            (net (buildChatRequest prompt contentType)).statusText)) ∧
    ((net (buildChatRequest prompt contentType)).ok = true →
      ((net (buildChatRequest prompt contentType)).body = OkBody.notJson →
        (generateCourseContent (some apiKey) net prompt contentType).result =
          .exn "SyntaxError") ∧
      ((net (buildChatRequest prompt contentType)).body = OkBody.noChoices →
        (generateCourseContent (some apiKey) net prompt contentType).result =
          .exn "TypeError") ∧
      (∀ c, (net (buildChatRequest prompt contentType)).body = OkBody.choices c →
        (generateCourseContent (some apiKey) net prompt contentType).result =
          .ok (jsOrElse c "Failed to generate content"))) := by
  rw [generateCourseContent, Option.getD, hkey]
  simp only [Bool.false_eq_true, if_false]
  refine ⟨?_, ?_, ?_⟩
  · cases hok : (net (buildChatRequest prompt contentType)).ok
    · simp [hok]
    · cases hbody : (net (buildChatRequest prompt contentType)).body <;> simp [hok, hbody]
  · intro hok
    simp [hok]
  · intro hok
    refine ⟨?_, ?_, ?_⟩
    · intro hbody
      simp [hok, hbody]
    · intro hbody
      simp [hok, hbody]
    · intro c hbody
      simp [hok, hbody]

/-- Witness for the amended C4 at a concrete key, network, prompt and type:
the empty-choices response yields one request and the placeholder success. -/
theorem C4_witness :
    (generateCourseContent (some "k") (fun _ => emptySuccessResponse) "p" "lesson").requests =
      [buildChatRequest "p" "lesson"] ∧
    (generateCourseContent (some "k") (fun _ => emptySuccessResponse) "p" "lesson").result =
      .ok (jsOrElse none "Failed to generate content") :=
  ⟨(C4_single_request_no_retry "k" _ "p" "lesson" (by decide)).1,
   ((C4_single_request_no_retry "k" _ "p" "lesson" (by decide)).2.2 rfl).2.2 none rfl⟩

/-- C5 counterexample: under the authenticated own-profile update policy
(USING and WITH CHECK are both auth.uid() = id, with no column restriction),
the owner of a profile can change their own role field: the statement succeeds
and rewrites role lecturer to admin through the non-privileged path. -/
theorem C5_counterexample :
    runProfileUpdate "u1" (fun p => { p with role := "admin" })
        [{ id := "u1", email := "e", full_name := "n", role := "lecturer" }] =
      .ok [{ id := "u1", email := "e", full_name := "n", role := "admin" }] ∧
    ("admin" : String) ≠ "lecturer" :=
  ⟨rfl, by decide⟩

/-- C5 (amended): an authenticated non-privileged UPDATE on profiles can touch
only the row whose id equals the id of the user itself; every other profile
row — in particular its role — is returned unchanged. The role column of the
own row is not itself protected by the policy. -/
theorem C5_update_only_own_row (uid : String) (f : Profile → Profile)
    (store result : List Profile)
    (h : runProfileUpdate uid f store = .ok result) :
    result.length = store.length ∧
    ∀ i (hi : i < store.length), (store.get ⟨i, hi⟩).id ≠ uid →
      result[i]? = some (store.get ⟨i, hi⟩) := by
  rw [runProfileUpdate] at h
  split at h
  · exact Except.noConfusion h
  · injection h with h
    subst h
    refine ⟨by simp, ?_⟩
    intro i hi hid
    rw [List.get_eq_getElem] at hid
    have hbeq : (uid == store[i].id) = false :=
      beq_eq_false_iff_ne.mpr (Ne.symm hid)
    rw [List.getElem?_map, List.getElem?_eq_getElem hi]
    rw [Option.map_some', if_neg (by simp [hbeq])]
    simp [List.get_eq_getElem]

/-- Witness for the amended C5: user u1 runs a role-changing update, and the
profile of u2 is untouched. -/
theorem C5_witness :
    ([{ id := "u2", email := "e2", full_name := "m", role := "lecturer" }] :
        List Profile)[0]? =
      some { id := "u2", email := "e2", full_name := "m", role := "lecturer" } :=
  (C5_update_only_own_row "u1" (fun p => { p with role := "admin" })
      [{ id := "u2", email := "e2", full_name := "m", role := "lecturer" }]
      [{ id := "u2", email := "e2", full_name := "m", role := "lecturer" }] rfl).2
    0 (by decide) (by decide)

end App
